import Mathlib

/-!
Verification of the aw-mcp-rs request/response pipeline: a shallow embedding
of the data model (`Bucket`, `Event`), the transport client's response
classification (`handle_response`), and the tool dispatch layer
(`aw_list_buckets`, `aw_get_bucket`, `aw_get_events`, `aw_get_event_count`)
with its markdown rendering and size-bounded truncation.

Strings are modelled as `List Char`; Rust's byte-indexed `String` operations
are modelled through the UTF-8 byte size of each character.  Fallible
operations (in particular the byte slice in `truncate_response`, which panics
in Rust when the index is not a character boundary) return `Option`.
-/

/-- Strings of the program, as lists of Unicode scalar values. -/
abbrev Str := List Char

/-- The line separator used by all `join("\n")` calls. -/
def nl : Str := ['\n']

/-- Decimal rendering of a natural number (model of `format!("{}", n)`). -/
def natStr (n : Nat) : Str := (Nat.repr n).data

/-- Decimal rendering of an integer (model of `format!("{}", i)` on `i32`/`i64`). -/
def intStr (i : Int) : Str := if i < 0 then '-' :: natStr i.natAbs else natStr i.natAbs

/-- Number of bytes of the UTF-8 encoding of one character. -/
def utf8Size (c : Char) : Nat :=
  if c.toNat < 0x80 then 1
  else if c.toNat < 0x800 then 2
  else if c.toNat < 0x10000 then 3
  else 4

/-- `String::len` of Rust: the UTF-8 byte length. -/
def bytesLen : Str → Nat
  | [] => 0
  | c :: cs => utf8Size c + bytesLen cs

/-- from src/constants.rs: `CHARACTER_LIMIT` (in fact a byte budget). -/
def CHARACTER_LIMIT : Nat := 25000

/-- from src/constants.rs: `DEFAULT_EVENTS_LIMIT` (an `i32`). -/
def DEFAULT_EVENTS_LIMIT : Int := 100

/-- Model of the Rust byte slice `&s[..n]`: the prefix holding exactly `n`
bytes of UTF-8, or `none` when `n` is not a character boundary of `s`
(including `n` past the end) — the case in which Rust panics. -/
def takeBytes : Str → Nat → Option Str
  | [], 0 => some []
  | _ :: _, 0 => some []
  | [], _ + 1 => none
  | c :: cs, n + 1 =>
    if utf8Size c ≤ n + 1 then (takeBytes cs (n + 1 - utf8Size c)).map (fun t => c :: t)
    else none

/-- The appended notice of `truncate_response`
(`format!("{}\n\n_Response truncated at {} characters. ...", truncated, CHARACTER_LIMIT)`). -/
def truncNotice : Str :=
  "\n\n_Response truncated at ".data ++ natStr CHARACTER_LIMIT
    ++ " characters. Use more specific filters to reduce results._".data

/-- from src/tools/buckets.rs: `truncate_response`.  `none` models the panic of
the byte slice `&response[..CHARACTER_LIMIT]` on a non-boundary index. -/
def truncate_response (response : Str) : Option Str :=
  if CHARACTER_LIMIT < bytesLen response then
    (takeBytes response CHARACTER_LIMIT).map (fun truncated => truncated ++ truncNotice)
  else some response

/-! ### JSON values (model of `serde_json::Value`)

Numbers are modelled as exact rationals; serde_json's float rendering and
re-parsing round-trips exactly (shortest-representation printing), which this
abstraction reflects. -/

/-- Model of `serde_json::Value`.  Objects are association lists in document
order; serde's map preserves no link structure the claims depend on. -/
inductive Json where
  | null
  | bool (b : Bool)
  | num (q : ℚ)
  | str (s : Str)
  | arr (xs : List Json)
  | obj (kvs : List (Str × Json))

/-- Key lookup in a JSON object, first occurrence wins.  (serde rejects
duplicate keys with an error; no claim involves a duplicate key, so the
difference is unobservable here.) -/
def jsonLookup (key : Str) : List (Str × Json) → Option Json
  | [] => none
  | (k, v) :: rest => if k = key then some v else jsonLookup key rest

/-- Minimal JSON string escaping (quote, backslash, newline, tab, CR). -/
def jsonEscape : Str → Str
  | [] => []
  | c :: cs =>
    (if c = '"' then ['\\', '"']
     else if c = '\\' then ['\\', '\\']
     else if c = '\n' then ['\\', 'n']
     else if c = '\t' then ['\\', 't']
     else if c = '\r' then ['\\', 'r']
     else [c]) ++ jsonEscape cs

/-- Textual form of a rational JSON number.  Stands in for serde_json's
shortest-float rendering; no claim inspects these digits. -/
def ratStr (q : ℚ) : Str :=
  intStr q.num ++ (if q.den = 1 then [] else '/' :: natStr q.den)

mutual

/-- Model of serde_json text output (compact; the pretty printer of
`to_string_pretty` differs only in whitespace, which no claim inspects). -/
def jsonDump : Json → Str
  | .null => "null".data
  | .bool true => "true".data
  | .bool false => "false".data
  | .num q => ratStr q
  | .str s => '"' :: (jsonEscape s ++ ['"'])
  | .arr xs => Char.ofNat 91 :: (jsonDumpSeq xs ++ [Char.ofNat 93])
  | .obj kvs => Char.ofNat 123 :: (jsonDumpObjSeq kvs ++ [Char.ofNat 125])

/-- Comma-separated dump of an array's elements. -/
def jsonDumpSeq : List Json → Str
  | [] => []
  | [x] => jsonDump x
  | x :: xs => jsonDump x ++ (',' :: jsonDumpSeq xs)

/-- Comma-separated dump of an object's entries. -/
def jsonDumpObjSeq : List (Str × Json) → Str
  | [] => []
  | [(k, v)] => '"' :: (jsonEscape k ++ ('"' :: (':' :: jsonDump v)))
  | (k, v) :: kvs =>
    ('"' :: (jsonEscape k ++ ('"' :: (':' :: jsonDump v)))) ++ (',' :: jsonDumpObjSeq kvs)

end

/-- Model of `serde_json::to_string_pretty`: serde's signature is fallible
(`Result<String>`), though on these value types serialization succeeds. -/
def to_string_pretty (j : Json) : Except Unit Str := .ok (jsonDump j)

/-- The expression `...unwrap_or_else(|_| "Error formatting JSON".to_string())`
applied to a serializer result, as written at each `ResponseFormat::Json`
branch of src/tools/buckets.rs. -/
def unwrapOrElseFmt (r : Except Unit Str) : Str :=
  match r with
  | .ok s => s
  | .error _ => "Error formatting JSON".data

/-! ### Timestamps (model of `chrono::DateTime<Utc>`)

A timestamp is identified with its canonical RFC 3339 rendering
`YYYY-MM-DDTHH:MM:SSZ`, which is exactly what the program observes of the
library: decode parse-validates a string, rendering rearranges its text, and
encode re-emits it.  `validRfc` checks the canonical shape together with the
field ranges; chrono's finer calendar validation (month lengths, leap years)
is not modelled — no claim depends on it. -/

/-- A UTC timestamp, identified with its canonical RFC 3339 text. -/
structure DateTime where
  rfc : Str

/-- Numeric value of two decimal digit characters. -/
def twoDigits (a b : Char) : Nat := (a.toNat - 48) * 10 + (b.toNat - 48)

/-- Shape-and-range check for the canonical RFC 3339 form `YYYY-MM-DDTHH:MM:SSZ`. -/
def validRfc : Str → Bool
  | [y1, y2, y3, y4, '-', m1, m2, '-', d1, d2, 'T', h1, h2, ':', n1, n2, ':', s1, s2, 'Z'] =>
    y1.isDigit && y2.isDigit && y3.isDigit && y4.isDigit &&
    m1.isDigit && m2.isDigit && d1.isDigit && d2.isDigit &&
    h1.isDigit && h2.isDigit && n1.isDigit && n2.isDigit &&
    s1.isDigit && s2.isDigit &&
    1 ≤ twoDigits m1 m2 && twoDigits m1 m2 ≤ 12 &&
    1 ≤ twoDigits d1 d2 && twoDigits d1 d2 ≤ 31 &&
    twoDigits h1 h2 ≤ 23 && twoDigits n1 n2 ≤ 59 && twoDigits s1 s2 ≤ 59
  | _ => false

/-- A timestamp the remote service can actually produce: one in canonical form. -/
def DateTime.WF (d : DateTime) : Prop := validRfc d.rfc = true

/-- chrono's `format("%Y-%m-%d %H:%M:%S")` on a canonical timestamp: the date
part, a space, and the time part. -/
def fmtYmdHms (d : DateTime) : Str :=
  d.rfc.take 10 ++ (' ' :: (d.rfc.drop 11).take 8)

/-! ### Data model (src/models/bucket.rs) -/

/-- from src/models/bucket.rs: `ResponseFormat`, defaulting to markdown. -/
inductive ResponseFormat where
  | markdown
  | json

instance : Inhabited ResponseFormat := ⟨.markdown⟩

/-- from src/models/bucket.rs: `Bucket`. -/
structure Bucket where
  id : Str
  client : Option Str
  bucket_type : Option Str
  hostname : Option Str
  created : Option DateTime
  data : Option (List (Str × Json))
  last_updated : Option DateTime

/-- from src/models/bucket.rs: `Event`.  `duration: f64` is modelled as an
exact rational; serde_json's float round-trip is exact. -/
structure Event where
  id : Option Int
  timestamp : DateTime
  duration : ℚ
  data : List (Str × Json)

/-! ### Decoding (model of the derived serde `Deserialize` impls) -/

/-- Deserializing a `String`. -/
def getStr : Json → Option Str
  | .str s => some s
  | _ => none

/-- Deserializing an `f64` (any JSON number). -/
def getNum : Json → Option ℚ
  | .num q => some q
  | _ => none

/-- Deserializing a `HashMap<String, serde_json::Value>`. -/
def getObj : Json → Option (List (Str × Json))
  | .obj kvs => some kvs
  | _ => none

/-- Deserializing a `chrono::DateTime<Utc>` from its RFC 3339 string. -/
def decodeDT : Json → Option DateTime
  | .str s => if validRfc s then some ⟨s⟩ else none
  | _ => none

/-- Deserializing an `i64` (an integral JSON number in range). -/
def decInt64 : Json → Option Int
  | .num q =>
    if q.den = 1 ∧ -(2 ^ 63) ≤ q.num ∧ q.num < 2 ^ 63 then some q.num else none
  | _ => none

/-- serde's handling of a present `Option<T>` field value: `null` is `None`,
anything else must deserialize at `T`. -/
def optFieldDecode (dec : Json → Option β) : Json → Option (Option β)
  | .null => some none
  | .bool b => (dec (.bool b)).map some
  | .num q => (dec (.num q)).map some
  | .str s => (dec (.str s)).map some
  | .arr xs => (dec (.arr xs)).map some
  | .obj kvs => (dec (.obj kvs)).map some

/-- Decoding an optional field from the result of its key lookup: absent
defaults to `None`, present goes through `optFieldDecode`. -/
def optFromLookup (dec : Json → Option β) : Option Json → Option (Option β)
  | none => some none
  | some j => optFieldDecode dec j

/-- serde's handling of an `#[serde(default)] Option<T>` field. -/
def getOptField (dec : Json → Option β) (kvs : List (Str × Json)) (key : Str) :
    Option (Option β) :=
  optFromLookup dec (jsonLookup key kvs)

/-- from src/models/bucket.rs: deserialization of `Bucket`.  `id` is required;
the six other fields are `#[serde(default)]` optionals. -/
def Bucket.fromJson (j : Json) : Option Bucket :=
  match j with
  | .obj kvs =>
    (jsonLookup "id".data kvs).bind fun idj =>
    (getStr idj).bind fun id =>
    (getOptField getStr kvs "client".data).bind fun client =>
    (getOptField getStr kvs "type".data).bind fun btype =>
    (getOptField getStr kvs "hostname".data).bind fun hostname =>
    (getOptField decodeDT kvs "created".data).bind fun created =>
    (getOptField getObj kvs "data".data).bind fun data =>
    (getOptField decodeDT kvs "last_updated".data).map fun lu =>
    ⟨id, client, btype, hostname, created, data, lu⟩
  | _ => none

/-- from src/models/bucket.rs: deserialization of `Event`.  `timestamp`,
`duration` and `data` are required; `id` is an `#[serde(default)]` optional. -/
def Event.fromJson (j : Json) : Option Event :=
  match j with
  | .obj kvs =>
    (getOptField decInt64 kvs "id".data).bind fun id =>
    (jsonLookup "timestamp".data kvs).bind fun tsj =>
    (decodeDT tsj).bind fun ts =>
    (jsonLookup "duration".data kvs).bind fun dj =>
    (getNum dj).bind fun dur =>
    (jsonLookup "data".data kvs).bind fun dataj =>
    (getObj dataj).map fun d =>
    ⟨id, ts, dur, d⟩
  | _ => none

/-! ### Encoding (model of the derived serde `Serialize` impls; `None`
serializes as `null`, fields appear in declaration order) -/

/-- Serializing an `Option<String>`. -/
def encOptStr : Option Str → Json
  | none => .null
  | some s => .str s

/-- Serializing an `Option<DateTime<Utc>>`. -/
def encOptDT : Option DateTime → Json
  | none => .null
  | some d => .str d.rfc

/-- Serializing an `Option<HashMap<String, Value>>`. -/
def encOptObj : Option (List (Str × Json)) → Json
  | none => .null
  | some kvs => .obj kvs

/-- Serializing an `Option<i64>`. -/
def encOptInt : Option Int → Json
  | none => .null
  | some i => .num (i : ℚ)

/-- from src/models/bucket.rs: serialization of `Bucket` (the `bucket_type`
field is renamed to `type`). -/
def Bucket.toJson (b : Bucket) : Json :=
  .obj [("id".data, .str b.id), ("client".data, encOptStr b.client),
    ("type".data, encOptStr b.bucket_type), ("hostname".data, encOptStr b.hostname),
    ("created".data, encOptDT b.created), ("data".data, encOptObj b.data),
    ("last_updated".data, encOptDT b.last_updated)]

/-- from src/models/bucket.rs: serialization of `Event`. -/
def Event.toJson (e : Event) : Json :=
  .obj [("id".data, encOptInt e.id), ("timestamp".data, .str e.timestamp.rfc),
    ("duration".data, .num e.duration), ("data".data, .obj e.data)]

/-- Well-formedness of a `Bucket` as produced by the program: its timestamps
are canonical. -/
def Bucket.WF (b : Bucket) : Prop :=
  (∀ d, b.created = some d → d.WF) ∧ (∀ d, b.last_updated = some d → d.WF)

/-- Well-formedness of an `Event` as produced by the program: canonical
timestamp and an `id` that fits in `i64`. -/
def Event.WF (e : Event) : Prop :=
  e.timestamp.WF ∧ (∀ i, e.id = some i → -(2 ^ 63) ≤ i ∧ i < 2 ^ 63)

/-! ### Markdown rendering (src/models/bucket.rs) -/

/-- `lines.join("\n")` of Rust. -/
def joinWith (sep : Str) : List Str → Str
  | [] => []
  | [l] => l
  | l :: ls => l ++ (sep ++ joinWith sep ls)

/-- from src/models/bucket.rs: the `lines` vector built by `Bucket::to_markdown`.
Note that the `data` (metadata) field is never rendered. -/
def Bucket.toMarkdownLines (b : Bucket) : List Str :=
  ("## ".data ++ b.id) ::
    ((match b.client with
      | some c => ["- **Client**: ".data ++ c]
      | none => []) ++
     (match b.bucket_type with
      | some t => ["- **Type**: ".data ++ t]
      | none => []) ++
     (match b.hostname with
      | some h => ["- **Hostname**: ".data ++ h]
      | none => []) ++
     (match b.created with
      | some d => ["- **Created**: ".data ++ fmtYmdHms d]
      | none => []) ++
     (match b.last_updated with
      | some d => ["- **Last Updated**: ".data ++ fmtYmdHms d]
      | none => []))

/-- from src/models/bucket.rs: `Bucket::to_markdown`. -/
def Bucket.to_markdown (b : Bucket) : Str := joinWith nl b.toMarkdownLines

/-- Model of Rust's `{:.1}` float formatting of the duration: one decimal
digit, rounding to nearest.  (Rust breaks ties to even, this model rounds
half up; no claim inspects these digits.) -/
def fmtDur1 (q : ℚ) : Str :=
  let t : Int := round (q * 10)
  (if t < 0 then ['-'] else []) ++ natStr (t.natAbs / 10) ++ ('.' :: natStr (t.natAbs % 10))

/-- from src/models/bucket.rs: the `lines` vector built by `Event::to_markdown`:
a `### timestamp (duration s)` heading, then one labeled line per data field
(string values unquoted, others in serde_json textual form). -/
def Event.toMarkdownLines (e : Event) : List Str :=
  ("### ".data ++ fmtYmdHms e.timestamp ++ " (".data ++ fmtDur1 e.duration ++ "s)".data) ::
    e.data.map (fun kv =>
      "- **".data ++ kv.1 ++ "**: ".data ++
        (match kv.2 with
         | .str s => s
         | v => jsonDump v))

/-- from src/models/bucket.rs: `Event::to_markdown`. -/
def Event.to_markdown (e : Event) : Str := joinWith nl e.toMarkdownLines

/-! ### Tool dispatch layer (src/tools/buckets.rs) -/

/-- Unicode `White_Space`, the class `char::is_whitespace` of Rust tests. -/
def rustWhitespace (c : Char) : Bool :=
  c = '\t' || c = '\n' || c = '\u000B' || c = '\u000C' || c = '\r' || c = ' ' ||
  c = '\u0085' || c = '\u00A0' || c = '\u1680' ||
  (0x2000 ≤ c.toNat && c.toNat ≤ 0x200A) ||
  c = '\u2028' || c = '\u2029' || c = '\u202F' || c = '\u205F' || c = '\u3000'

/-- `str::trim` of Rust: drop leading and trailing whitespace. -/
def rustTrim (s : Str) : Str :=
  ((s.dropWhile rustWhitespace).reverse.dropWhile rustWhitespace).reverse

/-- Rust's `usize as i32` cast: truncation to the low 32 bits, reinterpreted
as a signed value. -/
def toI32 (n : Nat) : Int :=
  if n % 2 ^ 32 < 2 ^ 31 then ((n % 2 ^ 32 : Nat) : Int)
  else ((n % 2 ^ 32 : Nat) : Int) - 2 ^ 32

/-- The payload a tool hands back through the MCP transport: a success or an
error result, both carrying text. -/
inductive CallToolResult where
  | success (text : Str)
  | error (text : Str)

/-- Model of `rmcp::ErrorData` (`McpError`): a JSON-RPC error code and message. -/
structure McpErr where
  code : Int
  message : Str

/-- `McpError::invalid_params`. -/
def McpErr.invalid_params (msg : Str) : McpErr := ⟨-32602, msg⟩

/-- `McpError::internal_error`. -/
def McpErr.internal_error (msg : Str) : McpErr := ⟨-32603, msg⟩

/-- Stand-in for `format!("{:?}", e)` on an `McpError`; no claim inspects it. -/
def debugFmt (e : McpErr) : Str :=
  "ErrorData code ".data ++ intStr e.code ++ " message ".data ++ e.message

/-- One tool invocation, observed up to its single outbound HTTP call: either
it replies immediately (no network call at all), or it issues one request of
shape `ρ` and maps the transport client's outcome to the reply through its
continuation. -/
inductive ToolStep (ρ α : Type) where
  | reply (r : CallToolResult)
  | call (req : ρ) (k : Except McpErr α → Option CallToolResult)

/-- from src/tools/buckets.rs: `ListBucketsParams`. -/
structure ListBucketsParams where
  response_format : ResponseFormat

/-- from src/tools/buckets.rs: `GetBucketParams`. -/
structure GetBucketParams where
  bucket_id : Str
  response_format : ResponseFormat

/-- from src/tools/buckets.rs: `GetEventsParams` (`limit: Option<i32>`). -/
structure GetEventsParams where
  bucket_id : Str
  limit : Option Int
  start : Option Str
  end_ : Option Str
  response_format : ResponseFormat

/-- from src/tools/buckets.rs: `GetEventCountParams`. -/
structure GetEventCountParams where
  bucket_id : Str
  start : Option Str
  end_ : Option Str

/-- The query `get_events` sends upstream (bucket id, resolved limit passed as
`Some(limit)`, and the pass-through filters). -/
structure GetEventsReq where
  bucket_id : Str
  limit : Option Int
  start : Option Str
  end_ : Option Str

/-- The query `get_event_count` sends upstream. -/
structure GetEventCountReq where
  bucket_id : Str
  start : Option Str
  end_ : Option Str

/-- The two lines `lines.push(bucket.to_markdown()); lines.push(String::new())`
per bucket of `aw_list_buckets`. -/
def bucketLines : List Bucket → List Str
  | [] => []
  | b :: bs => Bucket.to_markdown b :: [] :: bucketLines bs

/-- Continuation of `aw_list_buckets` after `client.get_buckets()`.  `none`
models a panic escaping `truncate_response`. -/
def listBucketsCont (p : ListBucketsParams) :
    Except McpErr (List (Str × Bucket)) → Option CallToolResult
  | .ok buckets =>
    match p.response_format with
    | .markdown =>
      (truncate_response (joinWith nl
        (("# ActivityWatch Buckets".data) :: [] ::
          ("Found ".data ++ natStr buckets.length ++ " buckets:".data) :: [] ::
          bucketLines (buckets.map Prod.snd)))).map (fun t => .success t)
    | .json =>
      some (.success (unwrapOrElseFmt (to_string_pretty
        (Json.obj (buckets.map (fun kv => (kv.1, Bucket.toJson kv.2)))))))
  | .error e => some (.error ("Failed to list buckets: ".data ++ debugFmt e))

/-- from src/tools/buckets.rs: `aw_list_buckets`. -/
def aw_list_buckets (p : ListBucketsParams) : ToolStep Unit (List (Str × Bucket)) :=
  .call () (listBucketsCont p)

/-- Continuation of `aw_get_bucket` after `client.get_bucket(...)` (no
truncation on this path). -/
def bucketCont (p : GetBucketParams) : Except McpErr Bucket → Option CallToolResult
  | .ok bucket =>
    some (.success
      (match p.response_format with
       | .markdown =>
         joinWith nl ["# Bucket Details".data, [], Bucket.to_markdown bucket]
       | .json => unwrapOrElseFmt (to_string_pretty (Bucket.toJson bucket))))
  | .error e => some (.error ("Failed to get bucket: ".data ++ debugFmt e))

/-- from src/tools/buckets.rs: `aw_get_bucket`: a blank id is rejected before
any network call. -/
def aw_get_bucket (p : GetBucketParams) : ToolStep Str Bucket :=
  if (rustTrim p.bucket_id).isEmpty then
    .reply (.error "Bucket ID cannot be empty".data)
  else
    .call p.bucket_id (bucketCont p)

/-- The notice `format!("_Limit of {} reached. Use pagination to see more._", limit)`. -/
def noticeLine (limit : Int) : Str :=
  "_Limit of ".data ++ intStr limit ++ " reached. Use pagination to see more._".data

/-- The two lines pushed per event by `aw_get_events`. -/
def eventLines : List Event → List Str
  | [] => []
  | e :: es => Event.to_markdown e :: [] :: eventLines es

/-- from src/tools/buckets.rs: the `lines` vector assembled by `aw_get_events`
in markdown format, including the conditional limit-reached notice guarded by
`events.len() as i32 >= limit`. -/
def renderEventsLines (bucket_id : Str) (events : List Event) (limit : Int) : List Str :=
  ("# Events from ".data ++ bucket_id) :: [] ::
    ("Showing ".data ++ natStr events.length ++ " events:".data) :: [] ::
    (eventLines events ++
      (if limit ≤ toI32 events.length then [noticeLine limit] else []))

/-- Continuation of `aw_get_events` after `client.get_events(...)`, carrying
the resolved limit.  `none` models a panic escaping `truncate_response`. -/
def eventsCont (p : GetEventsParams) (limit : Int) :
    Except McpErr (List Event) → Option CallToolResult
  | .ok events =>
    match p.response_format with
    | .markdown =>
      (truncate_response (joinWith nl
        (renderEventsLines p.bucket_id events limit))).map (fun t => .success t)
    | .json =>
      some (.success (unwrapOrElseFmt (to_string_pretty
        (Json.arr (events.map Event.toJson)))))
  | .error e => some (.error ("Failed to get events: ".data ++ debugFmt e))

/-- from src/tools/buckets.rs: `aw_get_events`: a blank id is rejected before
any network call; otherwise the limit resolves to
`params.limit.unwrap_or(DEFAULT_EVENTS_LIMIT)` and the resolved value is both
sent upstream and used by the rendering. -/
def aw_get_events (p : GetEventsParams) : ToolStep GetEventsReq (List Event) :=
  if (rustTrim p.bucket_id).isEmpty then
    .reply (.error "Bucket ID cannot be empty".data)
  else
    .call ⟨p.bucket_id, some (p.limit.getD DEFAULT_EVENTS_LIMIT), p.start, p.end_⟩
      (eventsCont p (p.limit.getD DEFAULT_EVENTS_LIMIT))

/-- Continuation of `aw_get_event_count` after `client.get_event_count(...)`
(fixed markdown summary, no truncation). -/
def countCont (p : GetEventCountParams) : Except McpErr Int → Option CallToolResult
  | .ok count =>
    some (.success (joinWith nl
      ((("# Event Count for ".data ++ p.bucket_id) :: [] ::
        ("**Total Events**: ".data ++ intStr count) :: []) ++
       (match p.start with
        | some s => ["**From**: ".data ++ s]
        | none => []) ++
       (match p.end_ with
        | some e => ["**To**: ".data ++ e]
        | none => []))))
  | .error e => some (.error ("Failed to get event count: ".data ++ debugFmt e))

/-- from src/tools/buckets.rs: `aw_get_event_count`: a blank id is rejected
before any network call. -/
def aw_get_event_count (p : GetEventCountParams) : ToolStep GetEventCountReq Int :=
  if (rustTrim p.bucket_id).isEmpty then
    .reply (.error "Bucket ID cannot be empty".data)
  else
    .call ⟨p.bucket_id, p.start, p.end_⟩ (countCont p)

/-! ### Transport client response handling (src/api/client.rs) -/

/-- An upstream HTTP response, observed as its status code and its body text
(`none` when the body cannot be read as text). -/
structure HttpResponse where
  status : Nat
  body : Option Str

/-- from src/api/client.rs: the status-code classification of
`handle_response` on a non-success status, body text echoed. -/
def classifyStatus (status : Nat) (body : Str) : McpErr :=
  if status = 404 then
    .invalid_params ("Resource not found. Please check the bucket ID. Details: ".data ++ body)
  else if status = 400 then
    .invalid_params ("Bad request. Please check your parameters. Details: ".data ++ body)
  else if status = 500 then
    .internal_error ("ActivityWatch server error: ".data ++ body)
  else
    .internal_error ("API request failed with status ".data ++ natStr status ++ ": ".data ++ body)

/-- from src/api/client.rs: `handle_response`.  A non-success status is
classified with the body read best-effort (`unwrap_or_default`: an unreadable
body becomes the empty string); a success status decodes the body, a decode
failure carrying the decoder's message. -/
def handle_response (dec : Str → Except Str α) (resp : HttpResponse) : Except McpErr α :=
  if 200 ≤ resp.status ∧ resp.status < 300 then
    match resp.body with
    | some b =>
      match dec b with
      | .ok v => .ok v
      | .error msg =>
        .error (.internal_error ("Failed to parse API response: ".data ++ msg))
    | none =>
      .error (.internal_error ("Failed to parse API response: ".data ++ "error decoding response body".data))
  else
    .error (classifyStatus resp.status (resp.body.getD []))

/-! ### Lemmas about byte-indexed truncation -/

/-- Slicing zero bytes yields the empty prefix. -/
theorem takeBytes_zero (s : Str) : takeBytes s 0 = some [] := by cases s <;> rfl

/-- Slicing a positive number of bytes out of the empty string fails. -/
theorem takeBytes_nil_succ (n : Nat) : takeBytes [] (n + 1) = none := rfl

/-- One step of the byte slice: consume the head character whole or fail. -/
theorem takeBytes_cons (c : Char) (cs : Str) (n : Nat) :
    takeBytes (c :: cs) (n + 1) =
      if utf8Size c ≤ n + 1 then (takeBytes cs (n + 1 - utf8Size c)).map (fun t => c :: t)
      else none := rfl

/-- UTF-8 byte length of `List.replicate`. -/
theorem bytesLen_replicate (m : Nat) (c : Char) :
    bytesLen (List.replicate m c) = m * utf8Size c := by
  induction m with
  | zero => simp [bytesLen]
  | succ k ih => rw [List.replicate_succ, bytesLen, ih]; ring

/-- A successful byte slice returns a prefix holding exactly the requested
number of bytes. -/
theorem takeBytes_sound (s : Str) : ∀ (n : Nat) (t : Str),
    takeBytes s n = some t → t <+: s ∧ bytesLen t = n := by
  induction s with
  | nil =>
    intro n t h
    cases n with
    | zero =>
      rw [takeBytes_zero] at h
      obtain rfl : ([] : Str) = t := Option.some.inj h
      exact ⟨List.nil_prefix, rfl⟩
    | succ m => rw [takeBytes_nil_succ] at h; exact Option.noConfusion h
  | cons c cs ih =>
    intro n t h
    cases n with
    | zero =>
      rw [takeBytes_zero] at h
      obtain rfl : ([] : Str) = t := Option.some.inj h
      exact ⟨List.nil_prefix, rfl⟩
    | succ m =>
      rw [takeBytes_cons] at h
      by_cases hle : utf8Size c ≤ m + 1
      · rw [if_pos hle] at h
        obtain ⟨t', ht', rfl⟩ := Option.map_eq_some'.mp h
        obtain ⟨hpre, hlen⟩ := ih _ _ ht'
        exact ⟨List.cons_prefix_cons.mpr ⟨rfl, hpre⟩, by rw [bytesLen, hlen]; omega⟩
      · rw [if_neg hle] at h; exact Option.noConfusion h

/-- Slicing an odd number of bytes out of a run of two-byte characters always
misses the character boundaries. -/
theorem takeBytes_two_odd (c : Char) (h2 : utf8Size c = 2) :
    ∀ (m n : Nat), n % 2 = 1 → takeBytes (List.replicate m c) n = none := by
  intro m
  induction m with
  | zero =>
    intro n hn
    cases n with
    | zero => omega
    | succ j => rw [List.replicate_zero]; exact takeBytes_nil_succ j
  | succ k ih =>
    intro n hn
    cases n with
    | zero => omega
    | succ j =>
      rw [List.replicate_succ, takeBytes_cons, h2]
      by_cases hj : 2 ≤ j + 1
      · rw [if_pos hj, ih (j + 1 - 2) (by omega)]
        rfl
      · rw [if_neg hj]

/-- Slicing an even number of bytes out of a long enough run of two-byte
characters yields the corresponding shorter run. -/
theorem takeBytes_two_even (c : Char) (h2 : utf8Size c = 2) :
    ∀ (k m : Nat), k ≤ m →
      takeBytes (List.replicate m c) (2 * k) = some (List.replicate k c) := by
  intro k
  induction k with
  | zero => intro m _; rw [Nat.mul_zero, takeBytes_zero, List.replicate_zero]
  | succ j ih =>
    intro m hk
    cases m with
    | zero => omega
    | succ m' =>
      rw [show 2 * (j + 1) = (2 * j + 1) + 1 from by ring, List.replicate_succ,
        takeBytes_cons, h2, if_pos (by omega),
        show 2 * j + 1 + 1 - 2 = 2 * j from by omega, ih m' (by omega),
        Option.map_some', List.replicate_succ]

/-- Slicing `n` bytes out of a long enough run of one-byte characters yields
the run of the first `n`. -/
theorem takeBytes_ones (c : Char) (h1 : utf8Size c = 1) :
    ∀ (n m : Nat), n ≤ m →
      takeBytes (List.replicate m c) n = some (List.replicate n c) := by
  intro n
  induction n with
  | zero => intro m _; rw [takeBytes_zero, List.replicate_zero]
  | succ j ih =>
    intro m hn
    cases m with
    | zero => omega
    | succ m' =>
      rw [List.replicate_succ, takeBytes_cons, h1, if_pos (by omega),
        show j + 1 - 1 = j from rfl, ih m' (by omega),
        Option.map_some', List.replicate_succ]

/-- C1: on a response whose 25,000th byte falls inside a multi-byte character,
`truncate_response` reaches Rust's panicking byte slice: the function is not
total, refuting that its panic branch is unreachable. -/
theorem c1_truncate_panics_on_multibyte :
    truncate_response ('a' :: List.replicate 12500 'é') = none := by
  have ha : utf8Size 'a' = 1 := by decide
  have he : utf8Size 'é' = 2 := by decide
  have hb : bytesLen ('a' :: List.replicate 12500 'é') = 25001 := by
    rw [bytesLen, bytesLen_replicate, ha, he]
  have htb : takeBytes ('a' :: List.replicate 12500 'é') 25000 = none := by
    rw [show (25000 : Nat) = 24999 + 1 from by norm_num, takeBytes_cons, ha,
      if_pos (by omega), show 24999 + 1 - 1 = 24999 from rfl,
      takeBytes_two_odd 'é' he 12500 24999 (by norm_num)]
    rfl
  unfold truncate_response
  rw [hb, if_pos (by norm_num [CHARACTER_LIMIT]), show CHARACTER_LIMIT = 25000 from rfl,
    htb]
  rfl

/-- C2 counterexample: a response of exactly 25,000 characters (all two-byte)
is not returned unchanged — the code measures bytes, not characters, and cuts
it down to its first 12,500 characters plus the notice. -/
theorem c2_char_budget_cex :
    (List.replicate 25000 'é').length ≤ 25000 ∧
    truncate_response (List.replicate 25000 'é') ≠ some (List.replicate 25000 'é') := by
  have he : utf8Size 'é' = 2 := by decide
  refine ⟨by rw [List.length_replicate], ?_⟩
  intro h
  have hb : bytesLen (List.replicate 25000 'é') = 50000 := by
    rw [bytesLen_replicate, he]
  have htb : takeBytes (List.replicate 25000 'é') 25000 =
      some (List.replicate 12500 'é') := by
    rw [show (25000 : Nat) = 2 * 12500 from by norm_num]
    exact takeBytes_two_even 'é' he 12500 25000 (by norm_num)
  unfold truncate_response at h
  rw [hb, if_pos (by norm_num [CHARACTER_LIMIT]), show CHARACTER_LIMIT = 25000 from rfl,
    htb, Option.map_some'] at h
  have hlen := congrArg List.length (Option.some.inj h)
  rw [List.length_append, List.length_replicate, List.length_replicate] at hlen
  have hn : truncNotice.length < 12500 := by decide
  omega

/-- C2 (amended): the budget is 25,000 UTF-8 bytes, not characters.  A
response of at most 25,000 bytes is returned unchanged; whenever a longer one
is returned at all (the slice does not panic), it is the prefix holding
exactly 25,000 bytes followed by the truncation notice. -/
theorem c2_byte_budget (s : Str) :
    (bytesLen s ≤ CHARACTER_LIMIT → truncate_response s = some s) ∧
    (∀ t, truncate_response s = some t → CHARACTER_LIMIT < bytesLen s →
      ∃ p, p <+: s ∧ bytesLen p = CHARACTER_LIMIT ∧ t = p ++ truncNotice) := by
  constructor
  · intro h
    unfold truncate_response
    rw [if_neg (by omega)]
  · intro t ht hgt
    unfold truncate_response at ht
    rw [if_pos hgt] at ht
    obtain ⟨p, hp, rfl⟩ := Option.map_eq_some'.mp ht
    obtain ⟨hpre, hlen⟩ := takeBytes_sound s CHARACTER_LIMIT p hp
    exact ⟨p, hpre, hlen, rfl⟩

/-- C2 witness: both branches of `c2_byte_budget` at concrete inputs — a short
response passes through unchanged, and a 25,002-byte response is cut at a
25,000-byte prefix. -/
theorem c2_byte_budget_apply :
    truncate_response "ab".data = some "ab".data ∧
    ∃ p, p <+: List.replicate 25002 'a' ∧ bytesLen p = CHARACTER_LIMIT ∧
      List.replicate 25000 'a' ++ truncNotice = p ++ truncNotice := by
  have ha : utf8Size 'a' = 1 := by decide
  have hb : bytesLen (List.replicate 25002 'a') = 25002 := by
    rw [bytesLen_replicate, ha]
  have htr : truncate_response (List.replicate 25002 'a') =
      some (List.replicate 25000 'a' ++ truncNotice) := by
    unfold truncate_response
    rw [hb, if_pos (by norm_num [CHARACTER_LIMIT]), show CHARACTER_LIMIT = 25000 from rfl,
      takeBytes_ones 'a' ha 25000 25002 (by norm_num), Option.map_some']
  exact ⟨(c2_byte_budget "ab".data).1 (by decide),
    (c2_byte_budget (List.replicate 25002 'a')).2 _ htr (by rw [hb]; norm_num [CHARACTER_LIMIT])⟩

/-! ### Blank bucket ids (C3) -/

/-- A string all of whose characters are whitespace trims to the empty string. -/
theorem rustTrim_isEmpty_of_all (s : Str) (h : s.all rustWhitespace = true) :
    (rustTrim s).isEmpty = true := by
  unfold rustTrim
  have h1 : s.dropWhile rustWhitespace = [] :=
    List.dropWhile_eq_nil_iff.mpr (by simpa [List.all_eq_true] using h)
  rw [h1]
  rfl

/-- C3: each of the three bucket-addressed tools, invoked with an empty or
whitespace-only bucket id, replies immediately with the literal error
"Bucket ID cannot be empty" — the reply is a `ToolStep.reply`, so the
transport client is never invoked. -/
theorem c3_blank_bucket_id_rejected (p1 : GetBucketParams) (p2 : GetEventsParams)
    (p3 : GetEventCountParams)
    (h1 : p1.bucket_id.all rustWhitespace = true)
    (h2 : p2.bucket_id.all rustWhitespace = true)
    (h3 : p3.bucket_id.all rustWhitespace = true) :
    aw_get_bucket p1 = .reply (.error "Bucket ID cannot be empty".data) ∧
    aw_get_events p2 = .reply (.error "Bucket ID cannot be empty".data) ∧
    aw_get_event_count p3 = .reply (.error "Bucket ID cannot be empty".data) := by
  refine ⟨?_, ?_, ?_⟩
  · unfold aw_get_bucket
    rw [if_pos (rustTrim_isEmpty_of_all _ h1)]
  · unfold aw_get_events
    rw [if_pos (rustTrim_isEmpty_of_all _ h2)]
  · unfold aw_get_event_count
    rw [if_pos (rustTrim_isEmpty_of_all _ h3)]

/-- C3 witness: the three tools at a whitespace-only bucket id `" \t "`. -/
theorem c3_blank_bucket_id_rejected_apply :
    aw_get_bucket ⟨" \t ".data, .markdown⟩ = .reply (.error "Bucket ID cannot be empty".data) ∧
    aw_get_events ⟨" \t ".data, none, none, none, .markdown⟩ =
      .reply (.error "Bucket ID cannot be empty".data) ∧
    aw_get_event_count ⟨" \t ".data, none, none⟩ =
      .reply (.error "Bucket ID cannot be empty".data) :=
  c3_blank_bucket_id_rejected ⟨" \t ".data, .markdown⟩
    ⟨" \t ".data, none, none, none, .markdown⟩ ⟨" \t ".data, none, none⟩
    (by decide) (by decide) (by decide)

/-! ### The limit-reached notice (C4, C10) -/

/-- A count below `2^31` survives the `usize as i32` cast unchanged. -/
theorem toI32_of_lt (n : Nat) (h : n < 2 ^ 31) : toI32 n = n := by
  unfold toI32
  rw [Nat.mod_eq_of_lt (by omega), if_pos (by omega)]

/-- At `2^31` the `usize as i32` cast wraps to `-2^31`. -/
theorem toI32_pow31 : toI32 (2 ^ 31) = -(2 ^ 31) := by
  unfold toI32
  rw [Nat.mod_eq_of_lt (by norm_num), if_neg (by norm_num)]
  norm_num

/-- The rendered form of an event starts with its `###` heading. -/
theorem eventMd_head (e : Event) : (Event.to_markdown e).head? = some '#' := by
  obtain ⟨id, ts, dur, d⟩ := e
  unfold Event.to_markdown Event.toMarkdownLines
  cases d with
  | nil => rfl
  | cons kv rest => rfl

/-- Every line pushed for the events themselves is an event rendering or a
blank separator. -/
theorem eventLines_mem (x : Str) : ∀ (es : List Event), x ∈ eventLines es →
    (∃ e, e ∈ es ∧ x = Event.to_markdown e) ∨ x = [] := by
  intro es
  induction es with
  | nil => intro h; exact absurd h (by simp [eventLines])
  | cons e es ih =>
    intro h
    rw [eventLines] at h
    rcases List.mem_cons.mp h with h1 | h
    · exact Or.inl ⟨e, List.mem_cons_self e es, h1⟩
    rcases List.mem_cons.mp h with h1 | h
    · exact Or.inr h1
    rcases ih h with ⟨e', he', heq⟩ | h1
    · exact Or.inl ⟨e', List.mem_cons_of_mem e he', heq⟩
    · exact Or.inr h1

/-- The notice line starts with an underscore. -/
theorem noticeLine_head (l : Int) : (noticeLine l).head? = some '_' := rfl

/-- The events header line starts with a hash. -/
theorem eventsHeader_head (bid : Str) :
    ("# Events from ".data ++ bid).head? = some '#' := rfl

/-- The count line starts with an S. -/
theorem showingLine_head (n : Nat) :
    ("Showing ".data ++ natStr n ++ " events:".data).head? = some 'S' := rfl

/-- The limit-reached notice appears among the assembled lines of
`aw_get_events` exactly when `events.len() as i32 >= limit` holds: no other
line can coincide with it (they start with other characters), and the notice
itself is appended under exactly that guard. -/
theorem notice_mem_renderEventsLines (bid : Str) (events : List Event) (l : Int) :
    noticeLine l ∈ renderEventsLines bid events l ↔ l ≤ toI32 events.length := by
  constructor
  · intro h
    unfold renderEventsLines at h
    rcases List.mem_cons.mp h with h1 | h
    · exact absurd ((noticeLine_head l).symm.trans
        ((congrArg List.head? h1).trans (eventsHeader_head bid))) (by decide)
    rcases List.mem_cons.mp h with h1 | h
    · exact absurd ((noticeLine_head l).symm.trans (congrArg List.head? h1)) (by decide)
    rcases List.mem_cons.mp h with h1 | h
    · exact absurd ((noticeLine_head l).symm.trans
        ((congrArg List.head? h1).trans (showingLine_head events.length))) (by decide)
    rcases List.mem_cons.mp h with h1 | h
    · exact absurd ((noticeLine_head l).symm.trans (congrArg List.head? h1)) (by decide)
    rcases List.mem_append.mp h with he | hi
    · rcases eventLines_mem _ _ he with ⟨e, _, heq⟩ | heq
      · exact absurd ((noticeLine_head l).symm.trans
          ((congrArg List.head? heq).trans (eventMd_head e))) (by decide)
      · exact absurd ((noticeLine_head l).symm.trans (congrArg List.head? heq)) (by decide)
    · by_cases hc : l ≤ toI32 events.length
      · exact hc
      · rw [if_neg hc] at hi
        exact absurd hi (by simp)
  · intro hc
    unfold renderEventsLines
    refine List.mem_cons_of_mem _ (List.mem_cons_of_mem _ (List.mem_cons_of_mem _
      (List.mem_cons_of_mem _ (List.mem_append_right _ ?_))))
    rw [if_pos hc]
    exact List.mem_singleton_self _

/-- A concrete event used by the wrap-around counterexamples. -/
def ev0 : Event := ⟨none, ⟨"2024-01-01T00:00:00Z".data⟩, 1, []⟩

/-- C4 (amended): with no limit supplied and a non-blank bucket id, the limit
resolves to 100 and that resolved value — not the raw optional — is both in
the upstream query and wired into the rendering continuation; provided fewer
than `2^31` events come back (the count is compared after an `as i32`
truncating cast), the limit-reached notice is assembled if and only if at
least 100 events were returned. -/
theorem c4_default_limit (p : GetEventsParams) (events : List Event)
    (hid : (rustTrim p.bucket_id).isEmpty = false) (hlim : p.limit = none)
    (hlen : events.length < 2 ^ 31) :
    aw_get_events p = .call ⟨p.bucket_id, some 100, p.start, p.end_⟩ (eventsCont p 100) ∧
    (noticeLine 100 ∈ renderEventsLines p.bucket_id events 100 ↔ 100 ≤ events.length) := by
  constructor
  · unfold aw_get_events
    rw [if_neg (by simp [hid]), hlim]
    rfl
  · rw [notice_mem_renderEventsLines, toI32_of_lt _ hlen]
    exact_mod_cast Iff.rfl

/-- C4 witness: a `get_events` call on bucket `"b"` with no limit, upstream
returning no events: the resolved limit 100 is sent upstream and no notice is
assembled. -/
theorem c4_default_limit_apply :
    aw_get_events ⟨"b".data, none, none, none, .markdown⟩ =
      .call ⟨"b".data, some 100, none, none⟩
        (eventsCont ⟨"b".data, none, none, none, .markdown⟩ 100) ∧
    (noticeLine 100 ∈ renderEventsLines "b".data ([] : List Event) 100 ↔
      100 ≤ ([] : List Event).length) :=
  c4_default_limit ⟨"b".data, none, none, none, .markdown⟩ [] (by decide) rfl (by decide)

/-- C4 counterexample: when the upstream returns `2^31` events under the
resolved limit 100, the count is at least the limit yet no notice is
assembled — `events.len() as i32` wraps to `-2^31`, below the limit. -/
theorem c4_i32_wrap_cex :
    100 ≤ (List.replicate (2 ^ 31) ev0).length ∧
    noticeLine 100 ∉ renderEventsLines "b".data (List.replicate (2 ^ 31) ev0) 100 := by
  constructor
  · rw [List.length_replicate]
    norm_num
  · rw [notice_mem_renderEventsLines, List.length_replicate, toI32_pow31]
    norm_num

/-- C10 (amended): a caller-supplied limit at most zero always produces the
limit-reached notice (in particular on an empty result), provided fewer than
`2^31` events come back (beyond that the `as i32` cast can wrap the count to
a negative value below the limit). -/
theorem c10_nonpositive_limit (p : GetEventsParams) (l : Int) (events : List Event)
    (hid : (rustTrim p.bucket_id).isEmpty = false) (hlim : p.limit = some l)
    (hl : l ≤ 0) (hlen : events.length < 2 ^ 31) :
    aw_get_events p = .call ⟨p.bucket_id, some l, p.start, p.end_⟩ (eventsCont p l) ∧
    noticeLine l ∈ renderEventsLines p.bucket_id events l := by
  constructor
  · unfold aw_get_events
    rw [if_neg (by simp [hid]), hlim]
    rfl
  · rw [notice_mem_renderEventsLines, toI32_of_lt _ hlen]
    have : (0 : Int) ≤ (events.length : Int) := Int.ofNat_nonneg _
    omega

/-- C10 witness: limit 0 on bucket `"b"` with an empty upstream result still
assembles the notice. -/
theorem c10_nonpositive_limit_apply :
    aw_get_events ⟨"b".data, some 0, none, none, .markdown⟩ =
      .call ⟨"b".data, some 0, none, none⟩
        (eventsCont ⟨"b".data, some 0, none, none, .markdown⟩ 0) ∧
    noticeLine 0 ∈ renderEventsLines "b".data ([] : List Event) 0 :=
  c10_nonpositive_limit ⟨"b".data, some 0, none, none, .markdown⟩ 0 []
    (by decide) rfl (by decide) (by decide)

/-- C10 counterexample: at limit 0 with `2^31` events returned, the claim's
"notice regardless of the count" fails — the wrapped count `-2^31` is below
the limit, so no notice is assembled. -/
theorem c10_nonpositive_limit_cex :
    noticeLine 0 ∉ renderEventsLines "b".data (List.replicate (2 ^ 31) ev0) 0 := by
  rw [notice_mem_renderEventsLines, List.length_replicate, toI32_pow31]
  norm_num

/-! ### Upstream status classification (C7) -/

/-- C7: a 404 response yields a classified error echoing "not found" and the
raw body; a 500 response one echoing "server error" and the raw body; and on
any non-success status an unreadable body is classified exactly like an empty
one rather than failing differently. -/
theorem c7_status_classification {α : Type} (dec : Str → Except Str α) (body : Str) :
    (∃ e, handle_response dec ⟨404, some body⟩ = .error e ∧
      "not found".data <:+: e.message ∧ body <:+: e.message) ∧
    (∃ e, handle_response dec ⟨500, some body⟩ = .error e ∧
      "server error".data <:+: e.message ∧ body <:+: e.message) ∧
    (∀ status : Nat, ¬(200 ≤ status ∧ status < 300) →
      handle_response dec ⟨status, none⟩ = handle_response dec ⟨status, some []⟩) := by
  refine ⟨⟨McpErr.invalid_params
      ("Resource not found. Please check the bucket ID. Details: ".data ++ body), ?_, ?_, ?_⟩,
    ⟨McpErr.internal_error ("ActivityWatch server error: ".data ++ body), ?_, ?_, ?_⟩, ?_⟩
  · unfold handle_response
    rw [if_neg (by norm_num)]
    rfl
  · exact ⟨"Resource ".data, ". Please check the bucket ID. Details: ".data ++ body, rfl⟩
  · exact ⟨"Resource not found. Please check the bucket ID. Details: ".data, [],
      by rw [List.append_nil]; rfl⟩
  · unfold handle_response
    rw [if_neg (by norm_num)]
    rfl
  · exact ⟨"ActivityWatch ".data, ": ".data ++ body, rfl⟩
  · exact ⟨"ActivityWatch server error: ".data, [], by rw [List.append_nil]; rfl⟩
  · intro status h
    unfold handle_response
    rw [if_neg h, if_neg h]
    rfl

/-- C7 witness: the classification at status 404 with an unreadable body
coincides with the empty-body classification. -/
theorem c7_status_classification_apply :
    handle_response (fun _ : Str => (Except.error [] : Except Str Unit)) ⟨404, none⟩ =
      handle_response (fun _ : Str => (Except.error [] : Except Str Unit)) ⟨404, some []⟩ :=
  (c7_status_classification (fun _ : Str => (Except.error [] : Except Str Unit)) []).2.2
    404 (by norm_num)

/-! ### Event decoding (C6) -/

/-- Binding a constantly-failing continuation fails. -/
theorem optionBind_none {α β : Type} (x : Option α) :
    x.bind (fun _ => (none : Option β)) = none := by cases x <;> rfl

/-- Unfolding of `Event.fromJson` on an object. -/
theorem Event.fromJson_obj (kvs : List (Str × Json)) :
    Event.fromJson (.obj kvs) =
      (getOptField decInt64 kvs "id".data).bind fun id =>
      (jsonLookup "timestamp".data kvs).bind fun tsj =>
      (decodeDT tsj).bind fun ts =>
      (jsonLookup "duration".data kvs).bind fun dj =>
      (getNum dj).bind fun dur =>
      (jsonLookup "data".data kvs).bind fun dataj =>
      (getObj dataj).map fun d =>
      ⟨id, ts, dur, d⟩ := rfl

/-- A canonical timestamp string decodes. -/
theorem decodeDT_valid (s : Str) (hs : validRfc s = true) :
    decodeDT (.str s) = some ⟨s⟩ := by
  show (if validRfc s = true then some (⟨s⟩ : DateTime) else none) = some ⟨s⟩
  rw [hs, if_pos rfl]

/-- C6: decoding an `Event` requires `timestamp`, `duration` and `data`: a
payload missing any one of the three fails to decode, while a well-typed
payload carrying exactly the three and no `id` decodes with the id absent. -/
theorem c6_event_required_fields :
    (∀ kvs : List (Str × Json), jsonLookup "timestamp".data kvs = none →
      Event.fromJson (.obj kvs) = none) ∧
    (∀ kvs : List (Str × Json), jsonLookup "duration".data kvs = none →
      Event.fromJson (.obj kvs) = none) ∧
    (∀ kvs : List (Str × Json), jsonLookup "data".data kvs = none →
      Event.fromJson (.obj kvs) = none) ∧
    (∀ (s : Str) (q : ℚ) (d : List (Str × Json)), validRfc s = true →
      Event.fromJson (.obj [("timestamp".data, .str s), ("duration".data, .num q),
        ("data".data, .obj d)]) = some ⟨none, ⟨s⟩, q, d⟩) := by
  refine ⟨?_, ?_, ?_, ?_⟩
  · intro kvs h
    rw [Event.fromJson_obj, h]
    simp only [Option.none_bind, optionBind_none]
  · intro kvs h
    rw [Event.fromJson_obj, h]
    simp only [Option.none_bind, optionBind_none]
  · intro kvs h
    rw [Event.fromJson_obj, h]
    simp only [Option.none_bind, optionBind_none]
  · intro s q d hs
    have hunf : Event.fromJson (.obj [("timestamp".data, .str s), ("duration".data, .num q),
        ("data".data, .obj d)]) =
        (decodeDT (.str s)).bind (fun ts => some ⟨none, ts, q, d⟩) := rfl
    rw [hunf, decodeDT_valid s hs]
    rfl

/-- C6 witness: a concrete payload without `id` decodes; one missing
`timestamp` does not. -/
theorem c6_event_required_fields_apply :
    Event.fromJson (.obj [("timestamp".data, .str "2024-01-01T12:00:00Z".data),
      ("duration".data, .num 60), ("data".data, .obj [])]) =
      some ⟨none, ⟨"2024-01-01T12:00:00Z".data⟩, 60, []⟩ ∧
    Event.fromJson (.obj [("duration".data, .num 60), ("data".data, .obj [])]) = none :=
  ⟨c6_event_required_fields.2.2.2 "2024-01-01T12:00:00Z".data 60 [] (by decide),
   c6_event_required_fields.1 [("duration".data, .num 60), ("data".data, .obj [])] rfl⟩

/-! ### Bucket payloads with optional fields (C5) -/

/-- One optional field of a payload: present as one key/value pair, or wholly
absent. -/
def mkOptField (key : Str) (enc : β → Json) : Option β → List (Str × Json)
  | none => []
  | some v => [(key, enc v)]

/-- A valid Bucket payload carrying the required id and exactly the given
subset of the optional fields. -/
def bucketPayloadKvs (id : Str) (c t h : Option Str) (cr : Option DateTime)
    (d : Option (List (Str × Json))) (lu : Option DateTime) : List (Str × Json) :=
  ("id".data, .str id) ::
    (mkOptField "client".data Json.str c ++
      (mkOptField "type".data Json.str t ++
        (mkOptField "hostname".data Json.str h ++
          (mkOptField "created".data (fun x => Json.str x.rfc) cr ++
            (mkOptField "data".data Json.obj d ++
              mkOptField "last_updated".data (fun x => Json.str x.rfc) lu)))))

/-- The payload as a JSON object. -/
def bucketPayload (id : Str) (c t h : Option Str) (cr : Option DateTime)
    (d : Option (List (Str × Json))) (lu : Option DateTime) : Json :=
  .obj (bucketPayloadKvs id c t h cr d lu)

/-- Looking up the key of the head pair. -/
theorem jsonLookup_cons_eq (k : Str) (v : Json) (rest : List (Str × Json)) :
    jsonLookup k ((k, v) :: rest) = some v := by
  show (if k = k then some v else jsonLookup k rest) = some v
  rw [if_pos rfl]

/-- Looking up a key other than the head pair's moves past it. -/
theorem jsonLookup_cons_ne (key k : Str) (v : Json) (rest : List (Str × Json))
    (h : k ≠ key) : jsonLookup key ((k, v) :: rest) = jsonLookup key rest := by
  show (if k = key then some v else jsonLookup key rest) = jsonLookup key rest
  rw [if_neg h]

/-- A lookup failing on the first part of a concatenation moves to the second. -/
theorem jsonLookup_append_none (key : Str) (l1 : List (Str × Json)) :
    ∀ l2, jsonLookup key l1 = none → jsonLookup key (l1 ++ l2) = jsonLookup key l2 := by
  induction l1 with
  | nil => intro l2 _; rfl
  | cons kv rest ih =>
    intro l2 h
    obtain ⟨k, v⟩ := kv
    by_cases hk : k = key
    · rw [hk, jsonLookup_cons_eq] at h
      exact Option.noConfusion h
    · rw [jsonLookup_cons_ne _ _ _ _ hk] at h
      rw [List.cons_append, jsonLookup_cons_ne _ _ _ _ hk, ih l2 h]

/-- An optional field under a different key never answers a lookup. -/
theorem jsonLookup_mk_ne (key k : Str) (enc : β → Json) (o : Option β) (h : k ≠ key) :
    jsonLookup key (mkOptField k enc o) = none := by
  cases o with
  | none => rfl
  | some v =>
    show jsonLookup key [(k, enc v)] = none
    rw [jsonLookup_cons_ne _ _ _ _ h]
    rfl

/-- Skipping an optional field under a different key. -/
theorem jsonLookup_mk_ne_append (key k : Str) (enc : β → Json) (o : Option β)
    (tail : List (Str × Json)) (hk : k ≠ key) (htail : jsonLookup key tail = none) :
    jsonLookup key (mkOptField k enc o ++ tail) = none := by
  rw [jsonLookup_append_none key _ tail (jsonLookup_mk_ne _ _ _ _ hk), htail]

/-- Looking up an optional field at its own key (assuming the key is absent
further on) yields exactly its encoded presence. -/
theorem jsonLookup_mk_append (key : Str) (enc : β → Json) (o : Option β)
    (tail : List (Str × Json)) (htail : jsonLookup key tail = none) :
    jsonLookup key (mkOptField key enc o ++ tail) = Option.map enc o := by
  cases o with
  | none =>
    show jsonLookup key ([] ++ tail) = Option.map enc none
    rw [List.nil_append, htail]
    rfl
  | some v =>
    show jsonLookup key ([(key, enc v)] ++ tail) = Option.map enc (some v)
    rw [List.singleton_append, jsonLookup_cons_eq]
    rfl

/-- The last optional field at its own key. -/
theorem jsonLookup_mk_self (key : Str) (enc : β → Json) (o : Option β) :
    jsonLookup key (mkOptField key enc o) = Option.map enc o := by
  cases o with
  | none => rfl
  | some v =>
    show jsonLookup key [(key, enc v)] = Option.map enc (some v)
    rw [jsonLookup_cons_eq]
    rfl

/-- Decoding an optional string field from its encoded presence. -/
theorem optFromLookup_str (c : Option Str) :
    optFromLookup getStr (Option.map Json.str c) = some c := by cases c <;> rfl

/-- Decoding an optional metadata field from its encoded presence. -/
theorem optFromLookup_obj (o : Option (List (Str × Json))) :
    optFromLookup getObj (Option.map Json.obj o) = some o := by cases o <;> rfl

/-- Decoding an optional canonical timestamp field from its encoded presence. -/
theorem optFromLookup_dt (o : Option DateTime) (ho : ∀ x, o = some x → x.WF) :
    optFromLookup decodeDT (Option.map (fun x => Json.str x.rfc) o) = some o := by
  cases o with
  | none => rfl
  | some x =>
    show (decodeDT (Json.str x.rfc)).map some = some (some x)
    rw [decodeDT_valid _ (ho x rfl)]
    rfl

/-- C5 (amended): a valid Bucket payload with any subset of the optional
fields present decodes to exactly those fields, and the rendering shows one
labeled line for exactly the present fields among client, type, hostname,
created and last_updated — but the metadata (`data`) field is never rendered,
present or not. -/
theorem c5_optional_fields (id : Str) (c t h : Option Str) (cr : Option DateTime)
    (d : Option (List (Str × Json))) (lu : Option DateTime)
    (hcr : ∀ x, cr = some x → x.WF) (hlu : ∀ x, lu = some x → x.WF) :
    Bucket.fromJson (bucketPayload id c t h cr d lu) = some ⟨id, c, t, h, cr, d, lu⟩ ∧
    Bucket.toMarkdownLines ⟨id, c, t, h, cr, d, lu⟩ =
      ("## ".data ++ id) ::
        ((c.map (fun v => "- **Client**: ".data ++ v)).toList ++
         (t.map (fun v => "- **Type**: ".data ++ v)).toList ++
         (h.map (fun v => "- **Hostname**: ".data ++ v)).toList ++
         (cr.map (fun x => "- **Created**: ".data ++ fmtYmdHms x)).toList ++
         (lu.map (fun x => "- **Last Updated**: ".data ++ fmtYmdHms x)).toList) ∧
    Bucket.toMarkdownLines ⟨id, c, t, h, cr, d, lu⟩ =
      Bucket.toMarkdownLines ⟨id, c, t, h, cr, none, lu⟩ := by
  refine ⟨?_, ?_, ?_⟩
  · have hunf : Bucket.fromJson (bucketPayload id c t h cr d lu) =
        (jsonLookup "id".data (bucketPayloadKvs id c t h cr d lu)).bind fun idj =>
        (getStr idj).bind fun idv =>
        (optFromLookup getStr (jsonLookup "client".data (bucketPayloadKvs id c t h cr d lu))).bind fun client =>
        (optFromLookup getStr (jsonLookup "type".data (bucketPayloadKvs id c t h cr d lu))).bind fun btype =>
        (optFromLookup getStr (jsonLookup "hostname".data (bucketPayloadKvs id c t h cr d lu))).bind fun hostname =>
        (optFromLookup decodeDT (jsonLookup "created".data (bucketPayloadKvs id c t h cr d lu))).bind fun created =>
        (optFromLookup getObj (jsonLookup "data".data (bucketPayloadKvs id c t h cr d lu))).bind fun data =>
        (optFromLookup decodeDT (jsonLookup "last_updated".data (bucketPayloadKvs id c t h cr d lu))).map fun lu' =>
        ⟨idv, client, btype, hostname, created, data, lu'⟩ := rfl
    have l_id : jsonLookup "id".data (bucketPayloadKvs id c t h cr d lu) =
        some (.str id) := jsonLookup_cons_eq _ _ _
    have l_client : jsonLookup "client".data (bucketPayloadKvs id c t h cr d lu) =
        Option.map Json.str c := by
      rw [bucketPayloadKvs, jsonLookup_cons_ne _ _ _ _ (by decide)]
      exact jsonLookup_mk_append _ _ _ _
        (jsonLookup_mk_ne_append _ _ _ _ _ (by decide)
          (jsonLookup_mk_ne_append _ _ _ _ _ (by decide)
            (jsonLookup_mk_ne_append _ _ _ _ _ (by decide)
              (jsonLookup_mk_ne_append _ _ _ _ _ (by decide)
                (jsonLookup_mk_ne _ _ _ _ (by decide))))))
    have l_type : jsonLookup "type".data (bucketPayloadKvs id c t h cr d lu) =
        Option.map Json.str t := by
      rw [bucketPayloadKvs, jsonLookup_cons_ne _ _ _ _ (by decide),
        jsonLookup_append_none _ _ _ (jsonLookup_mk_ne _ _ _ _ (by decide))]
      exact jsonLookup_mk_append _ _ _ _
        (jsonLookup_mk_ne_append _ _ _ _ _ (by decide)
          (jsonLookup_mk_ne_append _ _ _ _ _ (by decide)
            (jsonLookup_mk_ne_append _ _ _ _ _ (by decide)
              (jsonLookup_mk_ne _ _ _ _ (by decide)))))
    have l_host : jsonLookup "hostname".data (bucketPayloadKvs id c t h cr d lu) =
        Option.map Json.str h := by
      rw [bucketPayloadKvs, jsonLookup_cons_ne _ _ _ _ (by decide),
        jsonLookup_append_none _ _ _ (jsonLookup_mk_ne _ _ _ _ (by decide)),
        jsonLookup_append_none _ _ _ (jsonLookup_mk_ne _ _ _ _ (by decide))]
      exact jsonLookup_mk_append _ _ _ _
        (jsonLookup_mk_ne_append _ _ _ _ _ (by decide)
          (jsonLookup_mk_ne_append _ _ _ _ _ (by decide)
            (jsonLookup_mk_ne _ _ _ _ (by decide))))
    have l_created : jsonLookup "created".data (bucketPayloadKvs id c t h cr d lu) =
        Option.map (fun x => Json.str x.rfc) cr := by
      rw [bucketPayloadKvs, jsonLookup_cons_ne _ _ _ _ (by decide),
        jsonLookup_append_none _ _ _ (jsonLookup_mk_ne _ _ _ _ (by decide)),
        jsonLookup_append_none _ _ _ (jsonLookup_mk_ne _ _ _ _ (by decide)),
        jsonLookup_append_none _ _ _ (jsonLookup_mk_ne _ _ _ _ (by decide))]
      exact jsonLookup_mk_append _ _ _ _
        (jsonLookup_mk_ne_append _ _ _ _ _ (by decide)
          (jsonLookup_mk_ne _ _ _ _ (by decide)))
    have l_data : jsonLookup "data".data (bucketPayloadKvs id c t h cr d lu) =
        Option.map Json.obj d := by
      rw [bucketPayloadKvs, jsonLookup_cons_ne _ _ _ _ (by decide),
        jsonLookup_append_none _ _ _ (jsonLookup_mk_ne _ _ _ _ (by decide)),
        jsonLookup_append_none _ _ _ (jsonLookup_mk_ne _ _ _ _ (by decide)),
        jsonLookup_append_none _ _ _ (jsonLookup_mk_ne _ _ _ _ (by decide)),
        jsonLookup_append_none _ _ _ (jsonLookup_mk_ne _ _ _ _ (by decide))]
      exact jsonLookup_mk_append _ _ _ _ (jsonLookup_mk_ne _ _ _ _ (by decide))
    have l_lu : jsonLookup "last_updated".data (bucketPayloadKvs id c t h cr d lu) =
        Option.map (fun x => Json.str x.rfc) lu := by
      rw [bucketPayloadKvs, jsonLookup_cons_ne _ _ _ _ (by decide),
        jsonLookup_append_none _ _ _ (jsonLookup_mk_ne _ _ _ _ (by decide)),
        jsonLookup_append_none _ _ _ (jsonLookup_mk_ne _ _ _ _ (by decide)),
        jsonLookup_append_none _ _ _ (jsonLookup_mk_ne _ _ _ _ (by decide)),
        jsonLookup_append_none _ _ _ (jsonLookup_mk_ne _ _ _ _ (by decide)),
        jsonLookup_append_none _ _ _ (jsonLookup_mk_ne _ _ _ _ (by decide))]
      exact jsonLookup_mk_self _ _ _
    rw [hunf, l_id, l_client, l_type, l_host, l_created, l_data, l_lu,
      optFromLookup_str c, optFromLookup_str t, optFromLookup_str h,
      optFromLookup_dt cr hcr, optFromLookup_obj d, optFromLookup_dt lu hlu]
    simp only [Option.some_bind, getStr, Option.map_some']
  · cases c <;> cases t <;> cases h <;> cases cr <;> cases lu <;> rfl
  · rfl

/-- C5 witness: a payload with client, created and metadata present (type,
hostname, last_updated absent) decodes to exactly those fields. -/
theorem c5_optional_fields_apply :
    Bucket.fromJson (bucketPayload "b".data (some "aw".data) none none
      (some ⟨"2024-01-01T00:00:00Z".data⟩) (some []) none) =
      some ⟨"b".data, some "aw".data, none, none,
        some ⟨"2024-01-01T00:00:00Z".data⟩, some [], none⟩ :=
  (c5_optional_fields "b".data (some "aw".data) none none
    (some ⟨"2024-01-01T00:00:00Z".data⟩) (some []) none
    (fun x hx => by
      rw [← Option.some.inj hx]
      show validRfc "2024-01-01T00:00:00Z".data = true
      decide)
    (fun x hx => Option.noConfusion hx)).1

/-- C5 counterexample: a payload whose metadata (`data`) field is present
decodes with the field present, yet the rendering consists of the heading
alone — no labeled line for the present optional field ever appears. -/
theorem c5_metadata_not_rendered_cex :
    Bucket.fromJson (.obj [("id".data, .str "b".data), ("data".data, .obj [])]) =
      some ⟨"b".data, none, none, none, none, some [], none⟩ ∧
    Bucket.toMarkdownLines ⟨"b".data, none, none, none, none, some [], none⟩ =
      ["## b".data] := ⟨rfl, rfl⟩

/-! ### Serialization round-trip (C8) -/

/-- Decoding an optional string field serialized by serde (`None` as `null`). -/
theorem optFromLookup_encStr (o : Option Str) :
    optFromLookup getStr (some (encOptStr o)) = some o := by cases o <;> rfl

/-- Decoding an optional metadata field serialized by serde. -/
theorem optFromLookup_encObj (o : Option (List (Str × Json))) :
    optFromLookup getObj (some (encOptObj o)) = some o := by cases o <;> rfl

/-- Decoding an optional canonical timestamp field serialized by serde. -/
theorem optFromLookup_encDT (o : Option DateTime) (ho : ∀ x, o = some x → x.WF) :
    optFromLookup decodeDT (some (encOptDT o)) = some o := by
  cases o with
  | none => rfl
  | some x =>
    show (decodeDT (Json.str x.rfc)).map some = some (some x)
    rw [decodeDT_valid _ (ho x rfl)]
    rfl

/-- Decoding an optional `i64` field serialized by serde. -/
theorem optFromLookup_encInt (o : Option Int)
    (ho : ∀ i, o = some i → -(2 ^ 63) ≤ i ∧ i < 2 ^ 63) :
    optFromLookup decInt64 (some (encOptInt o)) = some o := by
  cases o with
  | none => rfl
  | some i =>
    show (decInt64 (Json.num (i : ℚ))).map some = some (some i)
    show ((if ((i : ℚ)).den = 1 ∧ -(2 ^ 63) ≤ ((i : ℚ)).num ∧ ((i : ℚ)).num < 2 ^ 63
      then some ((i : ℚ)).num else none).map some) = some (some i)
    rw [if_pos ⟨rfl, (ho i rfl).1, (ho i rfl).2⟩]
    rfl

/-- C8: serializing a `Bucket` or an `Event` to its structured JSON form and
decoding it back yields the original value field-for-field, for every value
the program can hold (canonical timestamps, `i64`-ranged id). -/
theorem c8_roundtrip (b : Bucket) (e : Event) (hb : b.WF) (he : e.WF) :
    Bucket.fromJson (Bucket.toJson b) = some b ∧
    Event.fromJson (Event.toJson e) = some e := by
  constructor
  · have hunf : Bucket.fromJson (Bucket.toJson b) =
        (optFromLookup getStr (some (encOptStr b.client))).bind fun client =>
        (optFromLookup getStr (some (encOptStr b.bucket_type))).bind fun btype =>
        (optFromLookup getStr (some (encOptStr b.hostname))).bind fun hostname =>
        (optFromLookup decodeDT (some (encOptDT b.created))).bind fun created =>
        (optFromLookup getObj (some (encOptObj b.data))).bind fun data =>
        (optFromLookup decodeDT (some (encOptDT b.last_updated))).map fun lu =>
        (⟨b.id, client, btype, hostname, created, data, lu⟩ : Bucket) := rfl
    rw [hunf, optFromLookup_encStr b.client, optFromLookup_encStr b.bucket_type,
      optFromLookup_encStr b.hostname, optFromLookup_encDT b.created hb.1,
      optFromLookup_encObj b.data, optFromLookup_encDT b.last_updated hb.2]
    simp only [Option.some_bind, Option.map_some']
  · have hunf : Event.fromJson (Event.toJson e) =
        (optFromLookup decInt64 (some (encOptInt e.id))).bind fun id =>
        (decodeDT (.str e.timestamp.rfc)).bind fun ts =>
        some (⟨id, ts, e.duration, e.data⟩ : Event) := rfl
    rw [hunf, optFromLookup_encInt e.id he.2, decodeDT_valid _ he.1]
    simp only [Option.some_bind]

/-- C8 witness: the round-trip at a concrete bucket and a concrete event. -/
theorem c8_roundtrip_apply :
    Bucket.fromJson (Bucket.toJson ⟨"b".data, some "aw".data, none, none,
      some ⟨"2024-01-01T00:00:00Z".data⟩, some [], none⟩) =
      some ⟨"b".data, some "aw".data, none, none,
        some ⟨"2024-01-01T00:00:00Z".data⟩, some [], none⟩ ∧
    Event.fromJson (Event.toJson ⟨some 1, ⟨"2024-01-01T12:00:00Z".data⟩, 60, []⟩) =
      some ⟨some 1, ⟨"2024-01-01T12:00:00Z".data⟩, 60, []⟩ :=
  c8_roundtrip _ _
    ⟨fun x hx => by
        rw [← Option.some.inj hx]
        show validRfc "2024-01-01T00:00:00Z".data = true
        decide,
      fun x hx => Option.noConfusion hx⟩
    ⟨by show validRfc "2024-01-01T12:00:00Z".data = true; decide,
      fun i hi => by rw [← Option.some.inj hi]; exact ⟨by decide, by decide⟩⟩

/-! ### JSON-format serialization failure handling (C9) -/

/-- C9: in structured (json) format every tool wraps
`to_string_pretty(..).unwrap_or_else(|_| "Error formatting JSON")` in a
success result; whenever the serializer fails, that expression yields the
literal text "Error formatting JSON" — still inside a success result, never
an error result. -/
theorem c9_json_format_fallback :
    (∀ r : Except Unit Str, r.isOk = false →
      unwrapOrElseFmt r = "Error formatting JSON".data) ∧
    (∀ (p : ListBucketsParams) (bm : List (Str × Bucket)), p.response_format = .json →
      listBucketsCont p (.ok bm) = some (.success (unwrapOrElseFmt (to_string_pretty
        (Json.obj (bm.map (fun kv => (kv.1, Bucket.toJson kv.2)))))))) ∧
    (∀ (p : GetBucketParams) (b : Bucket), p.response_format = .json →
      bucketCont p (.ok b) =
        some (.success (unwrapOrElseFmt (to_string_pretty (Bucket.toJson b))))) ∧
    (∀ (p : GetEventsParams) (l : Int) (es : List Event), p.response_format = .json →
      eventsCont p l (.ok es) = some (.success (unwrapOrElseFmt (to_string_pretty
        (Json.arr (es.map Event.toJson)))))) := by
  refine ⟨?_, ?_, ?_, ?_⟩
  · intro r h
    cases r with
    | ok s => exact Bool.noConfusion ((rfl : (Except.ok s).isOk = true).symm.trans h)
    | error u => rfl
  · intro p bm hf
    obtain ⟨rf⟩ := p
    cases hf
    rfl
  · intro p b hf
    obtain ⟨bid, rf⟩ := p
    cases hf
    rfl
  · intro p l es hf
    obtain ⟨bid, lim, st, en, rf⟩ := p
    cases hf
    rfl

/-- C9 witness: a failing serializer result renders the literal, and the
json branch of `aw_get_bucket` wraps the serializer output in a success. -/
theorem c9_json_format_fallback_apply :
    unwrapOrElseFmt (.error ()) = "Error formatting JSON".data ∧
    bucketCont ⟨"b".data, .json⟩ (.ok ⟨"b".data, none, none, none, none, none, none⟩) =
      some (.success (unwrapOrElseFmt (to_string_pretty
        (Bucket.toJson ⟨"b".data, none, none, none, none, none, none⟩)))) :=
  ⟨c9_json_format_fallback.1 (.error ()) rfl,
   c9_json_format_fallback.2.2.1 ⟨"b".data, .json⟩
     ⟨"b".data, none, none, none, none, none, none⟩ rfl⟩
